import Mathlib

/-!
Verification development for the voice-koereq project-management scripts
(`src/scripts/*.py`). Each Python script is a flat sequence of console
prints, subprocess invocations and at most one file write; we embed each
script as a pure function from its external inputs (the parsed YAML spec,
a filesystem-existence oracle, per-call subprocess outcomes) to the trace
of observable events it performs, plus any value it returns.

Modelling conventions:
  * Python float arithmetic on small counters is modelled as exact
    rational arithmetic (`ℚ`); no claim here concerns rounding.
  * `print` of an f-string that interpolates a float uses the
    `Event.printNum` constructor carrying the rational, abstracting the
    `:.1f` rendering; f-strings interpolating integers use `toString`,
    abstracting only the `:3d` width padding.
  * A subprocess outcome is an oracle indexed by the call's position in
    the loop: `Except String String` for `check=True` calls (error carries
    stderr, ok carries stdout) and `Bool` for bare returncode tests.
-/

/-- A feature descriptor parsed from `voice-koereq-spec.yaml`:
id, name, description, type, priority. -/
structure Feature where
  id : String
  name : String
  description : String
  type : String
  priority : String
deriving DecidableEq

/-- The parsed YAML specification file: its `features` list. -/
structure YamlSpec where
  features : List Feature
deriving DecidableEq

/-- JSON values that appear in the `progress.json` snapshot. -/
inductive JVal where
  | jnat (n : Nat)
  | jnum (q : ℚ)
  | jstrs (l : List String)
deriving DecidableEq

/-- One observable action of a script: a console line, a console line
carrying a formatted rational, a subprocess invocation (argv list), a
`time.sleep`, or a file written by the script itself. -/
inductive Event where
  | print (s : String)
  | printNum (s : String) (q : ℚ)
  | exec (cmd : List String)
  | sleep (seconds : Nat)
  | fileWrite (path : String) (data : List (String × JVal))
deriving DecidableEq

/-! ### check_progress.py -/

/-- `ios/VoiceKoereq/Views/{feature['id']}View.swift`
(`check_progress.py`, line 21). -/
def viewPath (fid : String) : String :=
  "ios/VoiceKoereq/Views/" ++ fid ++ "View.swift"

/-- The existence test applied to one feature: `check_path.exists()`. -/
def isImplemented (fs : String → Bool) (f : Feature) : Bool :=
  fs (viewPath f.id)

/-- The `for feature in spec['features']` loop of `check_progress`:
appends each feature id to `implemented` or `not_implemented` according
to whether its iOS view file exists (`fs` is the filesystem oracle). -/
def check_loop (fs : String → Bool) :
    List Feature → List String × List String → List String × List String
  | [], acc => acc
  | f :: rest, (imp, notimp) =>
      if fs (viewPath f.id) then
        check_loop fs rest (imp ++ [f.id], notimp)
      else
        check_loop fs rest (imp, notimp ++ [f.id])

/-- `implemented` after the loop. -/
def implementedIds (fs : String → Bool) (spec : YamlSpec) : List String :=
  (check_loop fs spec.features ([], [])).1

/-- `not_implemented` after the loop. -/
def pendingIds (fs : String → Bool) (spec : YamlSpec) : List String :=
  (check_loop fs spec.features ([], [])).2

/-- `progress = (done / total) * 100 if total > 0 else 0`
(`check_progress.py`, line 31), with float division as `ℚ`. -/
def progress_percentage (fs : String → Bool) (spec : YamlSpec) : ℚ :=
  let total := spec.features.length
  let done := (implementedIds fs spec).length
  if 0 < total then ((done : ℚ) / (total : ℚ)) * 100 else 0

/-- The `progress_data` dict dumped to `progress.json`
(`check_progress.py`, lines 44-50), as an ordered key/value list. -/
def progress_data (fs : String → Bool) (spec : YamlSpec) :
    List (String × JVal) :=
  [("total_features", .jnat spec.features.length),
   ("implemented", .jnat (implementedIds fs spec).length),
   ("progress_percentage", .jnum (progress_percentage fs spec)),
   ("implemented_features", .jstrs (implementedIds fs spec)),
   ("pending_features", .jstrs (pendingIds fs spec))]

/-- The GitHub Actions output line (`check_progress.py`, lines 37-41):
`::set-output name=next_feature::` followed by `not_implemented[0]`
when `not_implemented` is non-empty, bare otherwise. -/
def next_feature_line (fs : String → Bool) (spec : YamlSpec) : String :=
  match pendingIds fs spec with
  | [] => "::set-output name=next_feature::"
  | x :: _ => "::set-output name=next_feature::" ++ x

/-- The full event trace of one run of `check_progress()`. -/
def check_progress_trace (fs : String → Bool) (spec : YamlSpec) :
    List Event :=
  [.printNum ("📊 実装進捗: " ++ toString (implementedIds fs spec).length
      ++ "/" ++ toString spec.features.length) (progress_percentage fs spec),
   .print ("✅ 実装済み: " ++ String.intercalate ", " (implementedIds fs spec)),
   .print ("⏳ 未実装: " ++ String.intercalate ", " (pendingIds fs spec)),
   .print (next_feature_line fs spec),
   .fileWrite "progress.json" (progress_data fs spec)]

/-! Structural lemmas about the progress loop. -/

theorem check_loop_eq (fs : String → Bool) (l : List Feature)
    (imp notimp : List String) :
    check_loop fs l (imp, notimp) =
      (imp ++ (l.filter (isImplemented fs)).map Feature.id,
       notimp ++ (l.filter (fun f => ! isImplemented fs f)).map Feature.id) := by
  induction l generalizing imp notimp with
  | nil => simp [check_loop]
  | cons f rest ih =>
      cases h : fs (viewPath f.id) with
      | true =>
          simp [check_loop, h, ih, isImplemented, List.filter_cons]
      | false =>
          simp [check_loop, h, ih, isImplemented, List.filter_cons]

theorem implementedIds_eq (fs : String → Bool) (spec : YamlSpec) :
    implementedIds fs spec =
      (spec.features.filter (isImplemented fs)).map Feature.id := by
  simp [implementedIds, check_loop_eq]

theorem pendingIds_eq (fs : String → Bool) (spec : YamlSpec) :
    pendingIds fs spec =
      (spec.features.filter (fun f => ! isImplemented fs f)).map Feature.id := by
  simp [pendingIds, check_loop_eq]

theorem mem_implementedIds (fs : String → Bool) (spec : YamlSpec)
    (x : String) (hx : x ∈ implementedIds fs spec) :
    fs (viewPath x) = true := by
  rw [implementedIds_eq] at hx
  rcases List.mem_map.mp hx with ⟨f, hf, rfl⟩
  have := List.of_mem_filter hf
  simpa [isImplemented] using this

theorem mem_pendingIds (fs : String → Bool) (spec : YamlSpec)
    (x : String) (hx : x ∈ pendingIds fs spec) :
    fs (viewPath x) = false := by
  rw [pendingIds_eq] at hx
  rcases List.mem_map.mp hx with ⟨f, hf, rfl⟩
  have := List.of_mem_filter hf
  simpa [isImplemented] using this

theorem length_filter_not_add (p : Feature → Bool) (l : List Feature) :
    (l.filter p).length + (l.filter (fun f => ! p f)).length = l.length := by
  induction l with
  | nil => simp
  | cons f rest ih =>
      cases h : p f <;> simp [List.filter_cons, h, ih] <;> omega

theorem head?_filter_map (p : Feature → Bool) (l : List Feature) :
    ((l.filter p).map Feature.id).head? = Option.map Feature.id (l.find? p) := by
  induction l with
  | nil => simp
  | cons f rest ih =>
      cases h : p f with
      | true => simp [List.filter_cons, h, List.find?_cons_of_pos _ h]
      | false =>
          have hneg : ¬ p f = true := by simp [h]
          simp [List.filter_cons, h, List.find?_cons_of_neg rest hneg, ih]

theorem eq_empty_of_length_zero (s : String) (h : s.length = 0) : s = "" := by
  cases s with
  | mk data =>
      cases data with
      | nil => rfl
      | cons c cs => simp [String.length] at h

/-- Claim C1: the reported progress percentage equals M/N×100 where N is
the number of features in the specification file and M the number whose
iOS view file `ios/VoiceKoereq/Views/<id>View.swift` exists; it is 0 when
N = 0. -/
theorem c1_progress_percentage_formula (fs : String → Bool) (spec : YamlSpec) :
    progress_percentage fs spec =
      if spec.features.length = 0 then 0
      else ((spec.features.filter (isImplemented fs)).length : ℚ)
             / (spec.features.length : ℚ) * 100 := by
  by_cases h : spec.features.length = 0
  · simp [progress_percentage, h]
  · simp [progress_percentage, Nat.pos_of_ne_zero h, h, implementedIds_eq]

/-- Claim C3: the JSON progress report has exactly the five keys
total_features, implemented, progress_percentage, implemented_features
and pending_features, in this order; total_features is the number of
features in the input file, implemented is the count of features whose
view file exists, and the two list fields hold the corresponding feature
ids. -/
theorem c3_progress_report_shape (fs : String → Bool) (spec : YamlSpec) :
    (progress_data fs spec).map Prod.fst =
      ["total_features", "implemented", "progress_percentage",
       "implemented_features", "pending_features"]
    ∧ progress_data fs spec =
      [("total_features", .jnat spec.features.length),
       ("implemented", .jnat (spec.features.filter (isImplemented fs)).length),
       ("progress_percentage", .jnum (progress_percentage fs spec)),
       ("implemented_features",
        .jstrs ((spec.features.filter (isImplemented fs)).map Feature.id)),
       ("pending_features",
        .jstrs ((spec.features.filter
                  (fun f => ! isImplemented fs f)).map Feature.id))] := by
  refine ⟨rfl, ?_⟩
  simp [progress_data, implementedIds_eq, pendingIds_eq]

/-- Claim C9: the implemented and pending id lists are disjoint, each is
a sublist of the input file's feature ids (so each preserves input
order), and their lengths sum to the number of features. -/
theorem c9_partition_invariants (fs : String → Bool) (spec : YamlSpec) :
    (implementedIds fs spec) ∩ (pendingIds fs spec) = []
    ∧ (implementedIds fs spec).Sublist (spec.features.map Feature.id)
    ∧ (pendingIds fs spec).Sublist (spec.features.map Feature.id)
    ∧ (implementedIds fs spec).length + (pendingIds fs spec).length
        = spec.features.length := by
  refine ⟨?_, ?_, ?_, ?_⟩
  · refine List.inter_eq_nil_iff_disjoint.mpr ?_
    intro x hx hy
    have h1 := mem_implementedIds fs spec x hx
    have h2 := mem_pendingIds fs spec x hy
    rw [h1] at h2
    exact Bool.noConfusion h2
  · rw [implementedIds_eq]
    exact (List.filter_sublist _).map Feature.id
  · rw [pendingIds_eq]
    exact (List.filter_sublist _).map Feature.id
  · rw [implementedIds_eq, pendingIds_eq]
    simpa using length_filter_not_add (isImplemented fs) spec.features

/-- A one-feature specification whose feature id is the empty string:
the degenerate input refuting the biconditional in claim C8. -/
def specC8 : YamlSpec :=
  ⟨[⟨"", "起動画面", "スプラッシュ画面", "ui", "high"⟩]⟩

/-- A filesystem on which no path exists. -/
def fsNone : String → Bool := fun _ => false

/-- Counterexample to claim C8 as stated: with a single feature whose id
is the empty string and whose view file does not exist, the emitted
set-output line is the bare `::set-output name=next_feature::` (it
carries the empty string) even though not every feature's view file
exists. -/
theorem c8_empty_id_cex :
    next_feature_line fsNone specC8 = "::set-output name=next_feature::"
    ∧ ¬ (∀ f ∈ specC8.features, isImplemented fsNone f = true) := by
  constructor
  · rfl
  · decide

/-- Claim C8 as amended: the set-output line always carries the id of
the first feature in specification order whose view file does not exist
(nothing when none is pending); provided every feature id is non-empty,
the line is the bare prefix exactly when every feature's view file
exists. -/
theorem c8_next_feature_output (fs : String → Bool) (spec : YamlSpec) :
    next_feature_line fs spec =
      "::set-output name=next_feature::" ++
        (match spec.features.find? (fun f => ! isImplemented fs f) with
         | some f => f.id
         | none => "")
    ∧ ((∀ f ∈ spec.features, f.id ≠ "") →
        (next_feature_line fs spec = "::set-output name=next_feature::" ↔
          ∀ f ∈ spec.features, isImplemented fs f = true)) := by
  have hhead := head?_filter_map (fun f => ! isImplemented fs f) spec.features
  rw [← pendingIds_eq] at hhead
  constructor
  · rcases hf : spec.features.find? (fun f => ! isImplemented fs f) with _ | f
    · rw [hf] at hhead
      simp only [Option.map_none'] at hhead
      have hnil : pendingIds fs spec = [] := by
        cases hp : pendingIds fs spec with
        | nil => rfl
        | cons x t => rw [hp] at hhead; simp at hhead
      simp [next_feature_line, hnil, String.append_empty]
    · rw [hf] at hhead
      simp only [Option.map_some'] at hhead
      cases hp : pendingIds fs spec with
      | nil => rw [hp] at hhead; simp at hhead
      | cons x t =>
          rw [hp] at hhead
          simp only [List.head?_cons, Option.some.injEq] at hhead
          simp [next_feature_line, hp, hhead]
  · intro hids
    constructor
    · intro hline
      cases hp : pendingIds fs spec with
      | nil =>
          have hmap : (spec.features.filter
              (fun f => ! isImplemented fs f)).map Feature.id = [] := by
            rw [← pendingIds_eq, hp]
          have hfil := List.map_eq_nil_iff.mp hmap
          intro f hf
          have := List.filter_eq_nil_iff.mp hfil f hf
          simpa using this
      | cons x t =>
          rw [next_feature_line, hp] at hline
          have hlen : x.length = 0 := by
            have := congrArg String.length hline
            simpa [String.length_append] using this
          have hx0 : x = "" := eq_empty_of_length_zero x hlen
          have hmem : x ∈ pendingIds fs spec := by
            rw [hp]; exact List.mem_cons_self x t
          rw [pendingIds_eq] at hmem
          rcases List.mem_map.mp hmem with ⟨f, hf, hfx⟩
          have hfmem : f ∈ spec.features := List.mem_of_mem_filter hf
          exact ((hids f hfmem) (hfx.trans hx0)).elim
    · intro hall
      have hfil : spec.features.filter (fun f => ! isImplemented fs f) = [] :=
        List.filter_eq_nil_iff.mpr (by intro f hf; simp [hall f hf])
      simp [next_feature_line, pendingIds_eq, hfil]

/-- A one-feature specification with a non-empty feature id. -/
def specW8 : YamlSpec :=
  ⟨[⟨"F1", "起動画面", "スプラッシュ画面", "ui", "high"⟩]⟩

/-- A filesystem on which every path exists. -/
def fsAll : String → Bool := fun _ => true

/-- Witness for C8's amended theorem at a concrete input: one feature
with non-empty id `F1` whose view file exists, so the line is bare. -/
theorem c8_next_feature_witness :
    next_feature_line fsAll specW8 = "::set-output name=next_feature::" :=
  ((c8_next_feature_output fsAll specW8).2 (by decide)).mpr (by decide)

/-! ### create_issues.py (dashboard) -/

/-- An issue record as selected by
`--json number,title,labels,state,createdAt,url`; the code immediately
maps each label object to its `name`, so labels are plain strings here. -/
structure Issue where
  number : Nat
  title : String
  labels : List String
  state : String
  createdAt : String
  url : String
deriving DecidableEq

/-- A pull-request record as selected by
`--json number,title,state,createdAt`. -/
structure PullReq where
  number : Nat
  title : String
  state : String
  createdAt : String
deriving DecidableEq

/-- A Python exception left uncaught by a script. -/
inductive PyErr where
  | zeroDivisionError
deriving DecidableEq

/-- `'implemented' in labels`. -/
def hasImplementedLabel (i : Issue) : Bool :=
  i.labels.contains "implemented"

/-- `'ready-to-implement' in labels`. -/
def hasReadyLabel (i : Issue) : Bool :=
  i.labels.contains "ready-to-implement"

/-- The `for issue in issues` categorisation loop of `show_dashboard`
(`create_issues.py`, lines 31-39): appends each issue to exactly one of
`not_started`, `ready_to_implement`, `implemented`, testing the
`implemented` label first. -/
def bucketLoop :
    List Issue → List Issue × List Issue × List Issue →
      List Issue × List Issue × List Issue
  | [], acc => acc
  | i :: rest, (ns, rd, im) =>
      if hasImplementedLabel i then
        bucketLoop rest (ns, rd, im ++ [i])
      else if hasReadyLabel i then
        bucketLoop rest (ns, rd ++ [i], im)
      else
        bucketLoop rest (ns ++ [i], rd, im)

/-- `not_started` after the loop. -/
def notStartedBucket (issues : List Issue) : List Issue :=
  (bucketLoop issues ([], [], [])).1

/-- `ready_to_implement` after the loop. -/
def readyBucket (issues : List Issue) : List Issue :=
  (bucketLoop issues ([], [], [])).2.1

/-- `implemented` after the loop. -/
def implementedBucket (issues : List Issue) : List Issue :=
  (bucketLoop issues ([], [], [])).2.2

/-- `gh issue list --json number,title,labels,state,createdAt,url --limit 50`. -/
def issueListCmd : List String :=
  ["gh", "issue", "list", "--json", "number,title,labels,state,createdAt,url",
   "--limit", "50"]

/-- `gh pr list --json number,title,state,createdAt --limit 5`. -/
def prListCmd : List String :=
  ["gh", "pr", "list", "--json", "number,title,state,createdAt", "--limit", "5"]

/-- `"=" * 60`. -/
def eqBar : String := String.mk (List.replicate 60 '=')

/-- `f"  #{issue['number']:3d} {issue['title']}"` (width padding of the
number abstracted). -/
def issueLine (i : Issue) : Event :=
  .print ("  #" ++ toString i.number ++ " " ++ i.title)

/-- One PR line of the dashboard, with its state icon. -/
def prLine (pr : PullReq) : Event :=
  .print ("  " ++ (if pr.state = "OPEN" then "🟢" else "🟣")
    ++ " PR #" ++ toString pr.number ++ " " ++ pr.title)

/-- The tail of the dashboard run after the statistics block: category
details, the PR fetch, and the action hints
(`create_issues.py`, lines 49-91). -/
def dashboardTail (issues : List Issue)
    (prFetch : Option (List PullReq)) : List Event :=
  (if (notStartedBucket issues).isEmpty then []
   else .print "⏳ 未着手のIssue:" :: (notStartedBucket issues).map issueLine)
  ++ [.print ""]
  ++ (if (readyBucket issues).isEmpty then []
      else .print "🔄 実装中のIssue:" :: (readyBucket issues).map issueLine)
  ++ [.print ""]
  ++ (if (implementedBucket issues).isEmpty then []
      else .print "✅ 実装済みのIssue:"
        :: ((implementedBucket issues).take 5).map issueLine
        ++ (if 5 < (implementedBucket issues).length then
              [.print ("  ... 他 "
                ++ toString ((implementedBucket issues).length - 5) ++ " 件")]
            else []))
  ++ [.print "", .print "📝 最新のPR:", .exec prListCmd]
  ++ (match prFetch with
      | some prs => prs.map prLine
      | none => [])
  ++ [.print "", .print "💡 次のアクション:"]
  ++ (match notStartedBucket issues with
      | i :: _ =>
          [.print "  1. 未着手のIssueに ready-to-implement ラベルを付けて実装開始",
           .print ("     gh issue edit " ++ toString i.number
             ++ " --add-label ready-to-implement")]
      | [] => [])
  ++ (match readyBucket issues with
      | i :: _ =>
          [.print "  2. 実装中のIssueの進捗確認",
           .print ("     gh issue view " ++ toString i.number)]
      | [] => [])
  ++ [.print "  3. 全Issueを一括実装",
      .print "     gh workflow run \x27🚀 Batch Issue Implementation\x27",
      .print "", .print eqBar]

/-- One run of `show_dashboard()`: `now` is the formatted
`datetime.now()` string, `issueFetch` the outcome of the issue-list call
(`none` models a non-zero returncode), `prFetch` that of the PR-list
call. Returns the event trace and the uncaught exception, if any. -/
def show_dashboard (now : String) (issueFetch : Option (List Issue))
    (prFetch : Option (List PullReq)) : List Event × Option PyErr :=
  let intro : List Event :=
    [.print eqBar, .print "🎤 voice-koereq Issue Dashboard", .print eqBar,
     .print ("📅 " ++ now), .print "", .exec issueListCmd]
  match issueFetch with
  | none => (intro ++ [.print "❌ Failed to fetch issues"], none)
  | some issues =>
      let stats1 : List Event :=
        [.print "📊 統計", .print ("  総Issue数: " ++ toString issues.length)]
      if issues.length = 0 then
        (intro ++ stats1, some .zeroDivisionError)
      else
        (intro ++ stats1
          ++ [.printNum ("  ✅ 実装済み: "
                ++ toString (implementedBucket issues).length)
                (((implementedBucket issues).length : ℚ)
                  / (issues.length : ℚ) * 100),
              .print ("  🔄 実装中: " ++ toString (readyBucket issues).length),
              .print ("  ⏳ 未着手: "
                ++ toString (notStartedBucket issues).length),
              .print ""]
          ++ dashboardTail issues prFetch, none)

theorem bucketLoop_eq (l : List Issue) (ns rd im : List Issue) :
    bucketLoop l (ns, rd, im) =
      (ns ++ l.filter (fun i => ! hasImplementedLabel i && ! hasReadyLabel i),
       rd ++ l.filter (fun i => ! hasImplementedLabel i && hasReadyLabel i),
       im ++ l.filter hasImplementedLabel) := by
  induction l generalizing ns rd im with
  | nil => simp [bucketLoop]
  | cons i rest ih =>
      cases h1 : hasImplementedLabel i with
      | true => simp [bucketLoop, h1, ih, List.filter_cons]
      | false =>
          cases h2 : hasReadyLabel i with
          | true => simp [bucketLoop, h1, h2, ih, List.filter_cons]
          | false => simp [bucketLoop, h1, h2, ih, List.filter_cons]

theorem notStartedBucket_eq (issues : List Issue) :
    notStartedBucket issues =
      issues.filter (fun i => ! hasImplementedLabel i && ! hasReadyLabel i) := by
  simp [notStartedBucket, bucketLoop_eq]

theorem readyBucket_eq (issues : List Issue) :
    readyBucket issues =
      issues.filter (fun i => ! hasImplementedLabel i && hasReadyLabel i) := by
  simp [readyBucket, bucketLoop_eq]

theorem implementedBucket_eq (issues : List Issue) :
    implementedBucket issues = issues.filter hasImplementedLabel := by
  simp [implementedBucket, bucketLoop_eq]

theorem count_three_filters (x : Issue) (l : List Issue) :
    (l.filter (fun i => ! hasImplementedLabel i && ! hasReadyLabel i)).count x
    + (l.filter (fun i => ! hasImplementedLabel i && hasReadyLabel i)).count x
    + (l.filter hasImplementedLabel).count x = l.count x := by
  induction l with
  | nil => simp
  | cons i rest ih =>
      cases hix : i == x with
      | true =>
          cases h1 : hasImplementedLabel i with
          | true => simp [List.filter_cons, h1, List.count_cons, hix]; omega
          | false =>
              cases h2 : hasReadyLabel i with
              | true => simp [List.filter_cons, h1, h2, List.count_cons, hix]; omega
              | false => simp [List.filter_cons, h1, h2, List.count_cons, hix]; omega
      | false =>
          cases h1 : hasImplementedLabel i with
          | true => simp [List.filter_cons, h1, List.count_cons, hix, ih]
          | false =>
              cases h2 : hasReadyLabel i with
              | true => simp [List.filter_cons, h1, h2, List.count_cons, hix, ih]
              | false => simp [List.filter_cons, h1, h2, List.count_cons, hix, ih]

theorem length_three_filters (l : List Issue) :
    (l.filter (fun i => ! hasImplementedLabel i && ! hasReadyLabel i)).length
    + (l.filter (fun i => ! hasImplementedLabel i && hasReadyLabel i)).length
    + (l.filter hasImplementedLabel).length = l.length := by
  induction l with
  | nil => simp
  | cons i rest ih =>
      cases h1 : hasImplementedLabel i with
      | true => simp [List.filter_cons, h1]; omega
      | false =>
          cases h2 : hasReadyLabel i with
          | true => simp [List.filter_cons, h1, h2]; omega
          | false => simp [List.filter_cons, h1, h2]; omega

/-- Claim C5: the dashboard places every fetched issue in exactly one of
the three buckets (stated with multiplicity: the three bucket counts of
any issue sum to its count in the fetched list), the `implemented` label
takes precedence over `ready-to-implement`, and the three bucket sizes
sum to the number of fetched issues. -/
theorem c5_dashboard_bucket_partition (issues : List Issue) :
    (∀ i : Issue,
      (notStartedBucket issues).count i + (readyBucket issues).count i
        + (implementedBucket issues).count i = issues.count i)
    ∧ (∀ i ∈ issues, hasImplementedLabel i = true →
        (implementedBucket issues).contains i = true
        ∧ (readyBucket issues).contains i = false
        ∧ (notStartedBucket issues).contains i = false)
    ∧ (notStartedBucket issues).length + (readyBucket issues).length
        + (implementedBucket issues).length = issues.length := by
  refine ⟨?_, ?_, ?_⟩
  · intro i
    rw [notStartedBucket_eq, readyBucket_eq, implementedBucket_eq]
    exact count_three_filters i issues
  · intro i hi h
    rw [notStartedBucket_eq, readyBucket_eq, implementedBucket_eq]
    refine ⟨?_, ?_, ?_⟩
    · have : i ∈ issues.filter hasImplementedLabel :=
        List.mem_filter.mpr ⟨hi, h⟩
      simpa using this
    · have : i ∉ issues.filter
          (fun i => ! hasImplementedLabel i && hasReadyLabel i) := by
        intro hmem
        have := (List.mem_filter.mp hmem).2
        simp [h] at this
      simpa using this
    · have : i ∉ issues.filter
          (fun i => ! hasImplementedLabel i && ! hasReadyLabel i) := by
        intro hmem
        have := (List.mem_filter.mp hmem).2
        simp [h] at this
      simpa using this
  · rw [notStartedBucket_eq, readyBucket_eq, implementedBucket_eq]
    exact length_three_filters issues

/-- An issue carrying both the `implemented` and `ready-to-implement`
labels. -/
def issueBoth : Issue :=
  ⟨7, "[F1] 起動画面", ["implemented", "ready-to-implement"], "OPEN",
   "2025-06-02", "https://example.invalid/7"⟩

/-- Witness for C5 at a concrete input: an issue labelled both
`implemented` and `ready-to-implement` lands in the implemented bucket
only. -/
theorem c5_bucket_partition_witness :
    (implementedBucket [issueBoth]).contains issueBoth = true
    ∧ (readyBucket [issueBoth]).contains issueBoth = false
    ∧ (notStartedBucket [issueBoth]).contains issueBoth = false :=
  (c5_dashboard_bucket_partition [issueBoth]).2.1 issueBoth (by decide)
    (by decide)

/-- Claim C10: when the issue-list call succeeds but returns an empty
list, `show_dashboard` prints only the header and the first two
statistics lines and then raises an uncaught ZeroDivisionError while
computing the implemented percentage — in particular no percentage line
is printed, the PR fetch never runs, and the summary is never completed. -/
theorem c10_empty_issue_list_zero_division (now : String)
    (prFetch : Option (List PullReq)) :
    show_dashboard now (some []) prFetch =
      ([.print eqBar, .print "🎤 voice-koereq Issue Dashboard", .print eqBar,
        .print ("📅 " ++ now), .print "", .exec issueListCmd,
        .print "📊 統計", .print "  総Issue数: 0"],
       some .zeroDivisionError) := by
  rfl

/-- Counterexample to claim C2 as stated: when the dashboard's
issue-list subprocess fails, `show_dashboard` prints an error message
and returns at once — the remaining work of the run (the PR-list
subprocess among it) is aborted rather than continued. -/
theorem c2_dashboard_abort_cex :
    (show_dashboard "2025-06-02 10:00:00" none (some [])).1 =
      [.print eqBar, .print "🎤 voice-koereq Issue Dashboard", .print eqBar,
       .print "📅 2025-06-02 10:00:00", .print "", .exec issueListCmd,
       .print "❌ Failed to fetch issues"]
    ∧ ((show_dashboard "2025-06-02 10:00:00" none (some [])).1.contains
        (Event.exec prListCmd)) = false := by
  constructor
  · rfl
  · decide

/-! ### create_feature_issues.py and create_issues_simple.py -/

/-- The fixed part of the issue body between the description and the
feature id. -/
def issueBodyMid1 : String := "\n\n## 機能詳細\n- **機能ID**: "

/-- The fixed part of the issue body between the feature id and name. -/
def issueBodyMid2 : String := "\n- **機能名**: "

/-- The fixed part of the issue body between the feature name and type. -/
def issueBodyMid3 : String := "\n- **タイプ**: "

/-- The fixed part of the issue body between the feature type and
priority. -/
def issueBodyMid4 : String := "\n- **優先度**: "

/-- The fixed tail of the issue body after the priority: implementation
requirements and acceptance criteria. -/
def issueBodyTail : String :=
  "\n\n## 実装要件\n\n### iOS\n- SwiftUI + Combine\n- iOS 16+ 対応\n- MVVM アーキテクチャ\n- エラーハンドリング\n- 日本語UI\n\n### Android\n- Jetpack Compose + Kotlin\n- Material Design 3\n- Hilt DI\n- Coroutines + Flow\n- 日本語UI\n\n### 共有ロジック\n- Kotlin Multiplatform\n- expect/actual パターン\n- 共通API設計\n\n## 受け入れ条件\n- [ ] iOS実装完了\n- [ ] Android実装完了\n- [ ] テストコード作成\n- [ ] コードレビュー完了\n- [ ] 日本語UI確認\n\n---\n*このIssueは自動生成されました*"

/-- The templated issue body f-string (`create_feature_issues.py`,
lines 26-67; identical template in `create_issues_simple.py`). -/
def issue_body (f : Feature) : String :=
  "## 概要\n" ++ f.description ++ issueBodyMid1 ++ f.id ++ issueBodyMid2
    ++ f.name ++ issueBodyMid3 ++ f.type ++ issueBodyMid4 ++ f.priority
    ++ issueBodyTail

/-- `title = f"[{feature_id}] {name}"`. -/
def issue_title (f : Feature) : String :=
  "[" ++ f.id ++ "] " ++ f.name

/-- `f'feature,{feature_type},{priority}'`. -/
def issue_label_arg (f : Feature) : String :=
  "feature," ++ f.type ++ "," ++ f.priority

/-- The `gh issue create` argv built by `create_feature_issues.py`
(lines 71-77). -/
def issueCreateCmd (f : Feature) : List String :=
  ["gh", "issue", "create", "--title", issue_title f,
   "--body", issue_body f, "--label", issue_label_arg f]

/-- The `gh issue create` argv built by `create_issues_simple.py`
(label fixed to `feature`). -/
def issueCreateCmdSimple (f : Feature) : List String :=
  ["gh", "issue", "create", "--title", issue_title f,
   "--body", issue_body f, "--label", "feature"]

/-- The `for feature in features` loop of `create_feature_issues`:
each iteration invokes `gh issue create` with `check=True`; a success
(stdout `out`) prints the created title and the stripped URL, a
`CalledProcessError` (stderr `err`) prints a failure message; the loop
then continues either way. `res k` is the outcome of the k-th call. -/
def create_feature_issues_loop (res : Nat → Except String String) :
    Nat → List Feature → List Event
  | _, [] => []
  | k, f :: rest =>
      (Event.exec (issueCreateCmd f) ::
        (match res k with
         | .ok out =>
             [.print ("✅ Created: " ++ issue_title f),
              .print ("   URL: " ++ out.trim)]
         | .error err =>
             [.print ("❌ Failed to create: " ++ issue_title f),
              .print ("   Error: " ++ err)]))
      ++ create_feature_issues_loop res (k + 1) rest

/-- One run of `create_feature_issues()` over the spec file's features. -/
def create_feature_issues_trace (res : Nat → Except String String)
    (spec : YamlSpec) : List Event :=
  create_feature_issues_loop res 0 spec.features

/-- The module-level `features` list of `create_issues_simple.py`. -/
def featuresSimple : List Feature :=
  [⟨"F7", "サマリー生成", "会話内容の要約とレポート生成", "ai_service", "medium"⟩,
   ⟨"F8", "オフライン", "オフライン時のデータ保存と同期機能", "infrastructure", "low"⟩]

/-- The loop of `create_issues_simple.py`'s `create_feature_issues`:
identical to the full script's loop except for the fixed label. -/
def create_issues_simple_loop (res : Nat → Except String String) :
    Nat → List Feature → List Event
  | _, [] => []
  | k, f :: rest =>
      (Event.exec (issueCreateCmdSimple f) ::
        (match res k with
         | .ok out =>
             [.print ("✅ Created: " ++ issue_title f),
              .print ("   URL: " ++ out.trim)]
         | .error err =>
             [.print ("❌ Failed to create: " ++ issue_title f),
              .print ("   Error: " ++ err)]))
      ++ create_issues_simple_loop res (k + 1) rest

/-- One run of `create_issues_simple.py`'s `create_feature_issues()`. -/
def create_issues_simple_trace (res : Nat → Except String String) :
    List Event :=
  create_issues_simple_loop res 0 featuresSimple

/-! ### trigger_claude_batch.py -/

/-- The fixed comment body posted on each issue. -/
def claudeComment : String :=
  "@claude Please implement this feature as described above. Focus on creating production-ready code for both iOS and Android platforms."

/-- `['gh', 'issue', 'comment', str(issue_num), '--body', comment]`. -/
def commentCmd (n : Nat) : List String :=
  ["gh", "issue", "comment", toString n, "--body", claudeComment]

/-- The `for issue_num in issue_numbers` loop of
`trigger_claude_on_issues` (`trigger_claude_batch.py`, lines 13-31):
after a successful comment call it sleeps 30 seconds whenever the whole
list has more than one entry; after a failed call it only prints the
error. `res k` is the outcome of the k-th call, `total` the length of
the whole list. -/
def trigger_loop (res : Nat → Except String Unit) (total : Nat) :
    Nat → List Nat → List Event
  | _, [] => []
  | k, n :: rest =>
      ([Event.print ("🤖 Triggering Claude on Issue #" ++ toString n),
        Event.exec (commentCmd n)]
       ++ (match res k with
           | .ok _ =>
               Event.print ("✅ Comment added to Issue #" ++ toString n) ::
                 (if 1 < total then
                    [Event.print "   ⏳ Waiting 30 seconds before next trigger...",
                     Event.sleep 30]
                  else [])
           | .error e =>
               [Event.print ("❌ Failed to comment on Issue #" ++ toString n
                 ++ ": " ++ e)]))
      ++ trigger_loop res total (k + 1) rest

/-- One run of `trigger_claude_on_issues(issue_numbers)`. -/
def trigger_claude_on_issues (res : Nat → Except String Unit)
    (ns : List Nat) : List Event :=
  trigger_loop res ns.length 0 ns

/-- The label names that mark a feature issue in
`get_unimplemented_issues`. -/
def featureLabels : List String :=
  ["feature", "ai_service", "ui", "audio_capture", "backend"]

/-- `'implemented' not in labels and any(l in [...] for l in labels)`. -/
def isUnimplementedFeature (i : Issue) : Bool :=
  ! i.labels.contains "implemented"
    && i.labels.any (fun l => featureLabels.contains l)

/-- `gh issue list --json number,title,labels --limit 50`. -/
def issueListCmdBatch : List String :=
  ["gh", "issue", "list", "--json", "number,title,labels", "--limit", "50"]

/-- One run of `get_unimplemented_issues()`: the selection loop keeps,
in order, the numbers of fetched issues that are not labelled
`implemented` and carry at least one feature label; on a failed fetch it
prints an error and returns the empty list. -/
def get_unimplemented_issues (fetch : Except String (List Issue)) :
    List Event × List Nat :=
  match fetch with
  | .ok issues =>
      ([.exec issueListCmdBatch],
       (issues.filter isUnimplementedFeature).map Issue.number)
  | .error e =>
      ([.exec issueListCmdBatch,
        .print ("❌ Failed to fetch issues: " ++ e)], [])

/-! ### sync_implementations.py and create_milestone -/

/-- The hard-coded `claude_branches` list: branch, feature id, feature
name. -/
def claude_branches : List (String × String × String) :=
  [("claude/issue-2-20250602_100108", "F1", "起動画面"),
   ("claude/issue-3-20250602_101312", "F2", "音声録音"),
   ("claude/issue-4-20250602_101312", "F3", "文字起こし"),
   ("claude/issue-5-20250602_101323", "F4", "AI医療アシスタント")]

/-- `cmd_ios` of the sync loop. -/
def syncCmdIos (branch fid : String) : List String :=
  ["git", "checkout", "origin/" ++ branch, "--",
   "ios/VoiceKoereq/**/" ++ fid ++ "*", "ios/VoiceKoereqTests/" ++ fid ++ "*"]

/-- `cmd_android` of the sync loop. -/
def syncCmdAndroid (branch fid : String) : List String :=
  ["git", "checkout", "origin/" ++ branch, "--", "android/**/" ++ fid ++ "*"]

/-- The `for branch, feature_id, feature_name in claude_branches` loop
of `sync_claude_implementations`: both checkouts run without
`check=True`, so a failure raises nothing; the success message is
printed only when the returncode is zero. `rc j` is the returncode test
of the j-th checkout inside the loop. -/
def sync_loop (rc : Nat → Bool) :
    Nat → List (String × String × String) → List Event
  | _, [] => []
  | k, (branch, fid, fname) :: rest =>
      ([Event.print ("\n🔄 Syncing " ++ fid ++ " (" ++ fname ++ ") from "
          ++ branch),
        Event.exec (syncCmdIos branch fid)]
       ++ (if rc (2 * k) then [Event.print "  ✅ iOS files synced"] else [])
       ++ [Event.exec (syncCmdAndroid branch fid)]
       ++ (if rc (2 * k + 1) then [Event.print "  ✅ Android files synced"]
           else []))
      ++ sync_loop rc (k + 1) rest

/-- One run of `sync_claude_implementations()`. -/
def sync_claude_implementations (rc : Nat → Bool) : List Event :=
  Event.exec ["git", "branch", "--show-current"] ::
    sync_loop rc 0 claude_branches
    ++ [Event.exec ["git", "add", "."],
        Event.exec ["git", "status", "--short"],
        Event.print "\n📋 Sync complete! Review changes and commit if needed."]

/-- The hard-coded milestones of `create_milestone`. -/
def milestones : List (String × String × String) :=
  [("MVP", "最小限の動作可能な製品", "2024-12-31"),
   ("Beta", "ベータ版リリース", "2025-01-15"),
   ("Production", "本番リリース", "2025-01-31")]

/-- The `gh api` argv for one milestone. -/
def milestoneCmd (t d due : String) : List String :=
  ["gh", "api", "repos/:owner/:repo/milestones",
   "-f", "title=" ++ t, "-f", "description=" ++ d, "-f", "due_on=" ++ due]

/-- One run of `create_milestone()`: each iteration runs `gh api`
without checking its outcome, then prints the success line
unconditionally. -/
def create_milestone_trace : List Event :=
  milestones.flatMap (fun m =>
    [.exec (milestoneCmd m.1 m.2.1 m.2.2),
     .print ("✅ Created milestone: " ++ m.1)])

/-! ### Trace projections -/

/-- The path of a file-write event, if any. -/
def writePath? : Event → Option String
  | .fileWrite p _ => some p
  | _ => none

/-- The argv of a subprocess event, if any. -/
def execCmd? : Event → Option (List String)
  | .exec c => some c
  | _ => none

/-- The duration of a sleep event, if any. -/
def sleepLen? : Event → Option Nat
  | .sleep s => some s
  | _ => none

/-- All paths the trace writes to. -/
def fileWrites (tr : List Event) : List String :=
  tr.filterMap writePath?

/-- All subprocess invocations of the trace, in order. -/
def execCmds (tr : List Event) : List (List String) :=
  tr.filterMap execCmd?

/-- All sleeps of the trace, in order. -/
def sleepEvents (tr : List Event) : List Nat :=
  tr.filterMap sleepLen?

theorem fileWrites_append (a b : List Event) :
    fileWrites (a ++ b) = fileWrites a ++ fileWrites b := by
  simp [fileWrites]

theorem execCmds_append (a b : List Event) :
    execCmds (a ++ b) = execCmds a ++ execCmds b := by
  simp [execCmds]

theorem sleepEvents_append (a b : List Event) :
    sleepEvents (a ++ b) = sleepEvents a ++ sleepEvents b := by
  simp [sleepEvents]

/-- Claim C6: for every feature descriptor, the issue creator's argv has
title exactly `[<id>] <name>` and label argument exactly
`feature,<type>,<priority>`, and the body embeds the feature's
description, id, name, type and priority. -/
theorem c6_issue_create_invocation (f : Feature) :
    issueCreateCmd f =
      ["gh", "issue", "create",
       "--title", "[" ++ f.id ++ "] " ++ f.name,
       "--body", issue_body f,
       "--label", "feature," ++ f.type ++ "," ++ f.priority]
    ∧ (∃ a b, issue_body f = a ++ (f.description ++ b))
    ∧ (∃ a b, issue_body f = a ++ (f.id ++ b))
    ∧ (∃ a b, issue_body f = a ++ (f.name ++ b))
    ∧ (∃ a b, issue_body f = a ++ (f.type ++ b))
    ∧ (∃ a b, issue_body f = a ++ (f.priority ++ b)) := by
  refine ⟨rfl, ⟨"## 概要\n",
      issueBodyMid1 ++ f.id ++ issueBodyMid2 ++ f.name ++ issueBodyMid3
        ++ f.type ++ issueBodyMid4 ++ f.priority ++ issueBodyTail, ?_⟩,
    ⟨"## 概要\n" ++ f.description ++ issueBodyMid1,
      issueBodyMid2 ++ f.name ++ issueBodyMid3 ++ f.type ++ issueBodyMid4
        ++ f.priority ++ issueBodyTail, ?_⟩,
    ⟨"## 概要\n" ++ f.description ++ issueBodyMid1 ++ f.id ++ issueBodyMid2,
      issueBodyMid3 ++ f.type ++ issueBodyMid4 ++ f.priority
        ++ issueBodyTail, ?_⟩,
    ⟨"## 概要\n" ++ f.description ++ issueBodyMid1 ++ f.id ++ issueBodyMid2
        ++ f.name ++ issueBodyMid3,
      issueBodyMid4 ++ f.priority ++ issueBodyTail, ?_⟩,
    ⟨"## 概要\n" ++ f.description ++ issueBodyMid1 ++ f.id ++ issueBodyMid2
        ++ f.name ++ issueBodyMid3 ++ f.type ++ issueBodyMid4,
      issueBodyTail, ?_⟩⟩
    <;> simp [issue_body, String.append_assoc]

theorem execCmds_create_loop (res : Nat → Except String String)
    (l : List Feature) : ∀ k,
    execCmds (create_feature_issues_loop res k l) = l.map issueCreateCmd := by
  induction l with
  | nil => intro k; rfl
  | cons f rest ih =>
      intro k
      cases hok : res k with
      | ok out =>
          simp [create_feature_issues_loop, hok, execCmds, execCmd?,
            List.filterMap_cons]
          simpa [execCmds] using ih (k + 1)
      | error err =>
          simp [create_feature_issues_loop, hok, execCmds, execCmd?,
            List.filterMap_cons]
          simpa [execCmds] using ih (k + 1)

theorem execCmds_simple_loop (res : Nat → Except String String)
    (l : List Feature) : ∀ k,
    execCmds (create_issues_simple_loop res k l)
      = l.map issueCreateCmdSimple := by
  induction l with
  | nil => intro k; rfl
  | cons f rest ih =>
      intro k
      cases hok : res k with
      | ok out =>
          simp [create_issues_simple_loop, hok, execCmds, execCmd?,
            List.filterMap_cons]
          simpa [execCmds] using ih (k + 1)
      | error err =>
          simp [create_issues_simple_loop, hok, execCmds, execCmd?,
            List.filterMap_cons]
          simpa [execCmds] using ih (k + 1)

theorem execCmds_trigger_loop (res : Nat → Except String Unit)
    (total : Nat) (l : List Nat) : ∀ k,
    execCmds (trigger_loop res total k l) = l.map commentCmd := by
  induction l with
  | nil => intro k; rfl
  | cons n rest ih =>
      intro k
      cases hok : res k with
      | ok u =>
          by_cases ht : 1 < total <;>
            · simp [trigger_loop, hok, ht, execCmds, execCmd?,
                List.filterMap_cons, List.filterMap_append]
              simpa [execCmds] using ih (k + 1)
      | error e =>
          simp [trigger_loop, hok, execCmds, execCmd?,
            List.filterMap_cons, List.filterMap_append]
          simpa [execCmds] using ih (k + 1)

theorem create_loop_failure_print (res : Nat → Except String String)
    (l : List Feature) : ∀ k j f err, l[j]? = some f →
    res (k + j) = .error err →
    Event.print ("❌ Failed to create: " ++ issue_title f)
      ∈ create_feature_issues_loop res k l := by
  induction l with
  | nil => intro k j f err hj _; simp at hj
  | cons g rest ih =>
      intro k j f err hj hr
      cases j with
      | zero =>
          simp at hj
          subst hj
          rw [Nat.add_zero] at hr
          simp [create_feature_issues_loop, hr]
      | succ j' =>
          simp at hj
          have hr' : res (k + 1 + j') = .error err := by
            rw [show k + 1 + j' = k + (j' + 1) by omega]
            exact hr
          have := ih (k + 1) j' f err hj hr'
          simp [create_feature_issues_loop, this]

theorem trigger_loop_failure_print (res : Nat → Except String Unit)
    (total : Nat) (l : List Nat) : ∀ k j n e, l[j]? = some n →
    res (k + j) = .error e →
    Event.print ("❌ Failed to comment on Issue #" ++ toString n ++ ": " ++ e)
      ∈ trigger_loop res total k l := by
  induction l with
  | nil => intro k j n e hj _; simp at hj
  | cons m rest ih =>
      intro k j n e hj hr
      cases j with
      | zero =>
          simp at hj
          subst hj
          rw [Nat.add_zero] at hr
          simp [trigger_loop, hr]
      | succ j' =>
          simp at hj
          have hr' : res (k + 1 + j') = .error e := by
            rw [show k + 1 + j' = k + (j' + 1) by omega]
            exact hr
          have := ih (k + 1) j' n e hj hr'
          cases hok : res k with
          | ok u =>
              by_cases ht : 1 < total <;> simp [trigger_loop, hok, ht, this]
          | error e0 =>
              simp [trigger_loop, hok, this]

/-- Claim C2 as amended: in the per-item loops (both issue creators and
the batch trigger) every subprocess call is made regardless of earlier
outcomes — the trace's invocation list is exactly one call per item — and
a failed call gets a printed failure message while the loop continues;
the dashboard, by contrast, prints an error and returns when its initial
issue-list fetch fails, skipping the rest of the run (the PR-list call
among it). -/
theorem c2_subprocess_failure_handling :
    (∀ (res : Nat → Except String String) (spec : YamlSpec),
      execCmds (create_feature_issues_trace res spec)
        = spec.features.map issueCreateCmd)
    ∧ (∀ res : Nat → Except String String,
        execCmds (create_issues_simple_trace res)
          = featuresSimple.map issueCreateCmdSimple)
    ∧ (∀ (res : Nat → Except String Unit) (ns : List Nat),
        execCmds (trigger_claude_on_issues res ns) = ns.map commentCmd)
    ∧ (∀ (res : Nat → Except String String) (spec : YamlSpec)
        (j : Nat) (f : Feature) (err : String),
        spec.features[j]? = some f → res j = .error err →
        Event.print ("❌ Failed to create: " ++ issue_title f)
          ∈ create_feature_issues_trace res spec)
    ∧ (∀ (res : Nat → Except String Unit) (ns : List Nat)
        (j n : Nat) (e : String),
        ns[j]? = some n → res j = .error e →
        Event.print ("❌ Failed to comment on Issue #" ++ toString n
          ++ ": " ++ e) ∈ trigger_claude_on_issues res ns)
    ∧ (∀ (now : String) (prFetch : Option (List PullReq)),
        Event.print "❌ Failed to fetch issues"
          ∈ (show_dashboard now none prFetch).1
        ∧ (show_dashboard now none prFetch).1.contains
            (Event.exec prListCmd) = false) := by
  refine ⟨?_, ?_, ?_, ?_, ?_, ?_⟩
  · intro res spec
    exact execCmds_create_loop res spec.features 0
  · intro res
    exact execCmds_simple_loop res featuresSimple 0
  · intro res ns
    exact execCmds_trigger_loop res ns.length ns 0
  · intro res spec j f err hj hr
    exact create_loop_failure_print res spec.features 0 j f err hj
      (by simpa using hr)
  · intro res ns j n e hj hr
    exact trigger_loop_failure_print res ns.length ns 0 j n e hj
      (by simpa using hr)
  · intro now prFetch
    constructor
    · simp [show_dashboard]
    · have hmem : Event.exec prListCmd ∉ (show_dashboard now none prFetch).1 := by
        simp [show_dashboard, issueListCmd, prListCmd, eqBar]
      simpa using hmem

/-- A subprocess oracle on which every call fails with stderr `boom`. -/
def resErr : Nat → Except String String := fun _ => .error "boom"

/-- Witness for C2's amended theorem at a concrete input: with a
one-feature spec file and a failing `gh issue create`, the failure
message is printed (and, per the theorem, the loop went on). -/
theorem c2_failure_message_witness :
    Event.print ("❌ Failed to create: "
        ++ issue_title ⟨"F1", "起動画面", "スプラッシュ画面", "ui", "high"⟩)
      ∈ create_feature_issues_trace resErr specW8 :=
  c2_subprocess_failure_handling.2.2.2.1 resErr specW8 0
    ⟨"F1", "起動画面", "スプラッシュ画面", "ui", "high"⟩ "boom" (by rfl) (by rfl)

/-- Success test on a comment-call outcome. -/
def isOkB : Except String Unit → Bool
  | .ok _ => true
  | .error _ => false

theorem range_filter_succ_length (p : Nat → Bool) (n : Nat) :
    ((List.range (n + 1)).filter p).length =
      (if p 0 then 1 else 0)
        + ((List.range n).filter (fun j => p (j + 1))).length := by
  rw [List.range_succ_eq_map, List.filter_cons]
  have h2 : ((List.range n).map Nat.succ).filter p
      = ((List.range n).filter (fun j => p (j + 1))).map Nat.succ := by
    rw [List.filter_map]
    rfl
  cases h0 : p 0 with
  | true => simp [h0, h2]; omega
  | false => simp [h0, h2]

theorem sleep_count_trigger_loop (res : Nat → Except String Unit)
    (total : Nat) (ht : 1 < total) (l : List Nat) : ∀ k,
    (sleepEvents (trigger_loop res total k l)).length =
      ((List.range l.length).filter (fun j => isOkB (res (k + j)))).length := by
  induction l with
  | nil => intro k; simp [trigger_loop, sleepEvents]
  | cons n rest ih =>
      intro k
      rw [show (n :: rest).length = rest.length + 1 from rfl,
        range_filter_succ_length]
      have hpred : (fun j => isOkB (res (k + (j + 1))))
          = (fun j => isOkB (res (k + 1 + j))) := by
        funext j
        congr 2
        omega
      cases hok : res k with
      | ok u =>
          have hstep : trigger_loop res total k (n :: rest) =
              ([Event.print ("🤖 Triggering Claude on Issue #" ++ toString n),
                Event.exec (commentCmd n),
                Event.print ("✅ Comment added to Issue #" ++ toString n),
                Event.print "   ⏳ Waiting 30 seconds before next trigger...",
                Event.sleep 30])
              ++ trigger_loop res total (k + 1) rest := by
            simp [trigger_loop, hok, ht]
          rw [hstep, sleepEvents_append, List.length_append]
          have h0 : isOkB (res k) = true := by rw [hok]; rfl
          have hpre : sleepEvents
              [Event.print ("🤖 Triggering Claude on Issue #" ++ toString n),
               Event.exec (commentCmd n),
               Event.print ("✅ Comment added to Issue #" ++ toString n),
               Event.print "   ⏳ Waiting 30 seconds before next trigger...",
               Event.sleep 30] = [30] := rfl
          rw [hpre, ih (k + 1)]
          simp [h0, hpred]
      | error e =>
          have hstep : trigger_loop res total k (n :: rest) =
              ([Event.print ("🤖 Triggering Claude on Issue #" ++ toString n),
                Event.exec (commentCmd n),
                Event.print ("❌ Failed to comment on Issue #" ++ toString n
                  ++ ": " ++ e)])
              ++ trigger_loop res total (k + 1) rest := by
            simp [trigger_loop, hok]
          rw [hstep, sleepEvents_append, List.length_append]
          have h0 : isOkB (res k) = false := by rw [hok]; rfl
          have hpre : sleepEvents
              [Event.print ("🤖 Triggering Claude on Issue #" ++ toString n),
               Event.exec (commentCmd n),
               Event.print ("❌ Failed to comment on Issue #" ++ toString n
                 ++ ": " ++ e)] = [] := rfl
          rw [hpre, ih (k + 1)]
          simp [h0, hpred]

theorem sleep_none_trigger_loop (res : Nat → Except String Unit)
    (total : Nat) (ht : ¬ 1 < total) (l : List Nat) : ∀ k,
    sleepEvents (trigger_loop res total k l) = [] := by
  induction l with
  | nil => intro k; rfl
  | cons n rest ih =>
      intro k
      cases hok : res k with
      | ok u =>
          have hstep : trigger_loop res total k (n :: rest) =
              ([Event.print ("🤖 Triggering Claude on Issue #" ++ toString n),
                Event.exec (commentCmd n),
                Event.print ("✅ Comment added to Issue #" ++ toString n)])
              ++ trigger_loop res total (k + 1) rest := by
            simp [trigger_loop, hok, ht]
          rw [hstep, sleepEvents_append, ih (k + 1)]
          rfl
      | error e =>
          have hstep : trigger_loop res total k (n :: rest) =
              ([Event.print ("🤖 Triggering Claude on Issue #" ++ toString n),
                Event.exec (commentCmd n),
                Event.print ("❌ Failed to comment on Issue #" ++ toString n
                  ++ ": " ++ e)])
              ++ trigger_loop res total (k + 1) rest := by
            simp [trigger_loop, hok]
          rw [hstep, sleepEvents_append, ih (k + 1)]
          rfl

theorem sleep_all_thirty_trigger_loop (res : Nat → Except String Unit)
    (total : Nat) (l : List Nat) : ∀ k s,
    s ∈ sleepEvents (trigger_loop res total k l) → s = 30 := by
  induction l with
  | nil => intro k s hs; simp [trigger_loop, sleepEvents] at hs
  | cons n rest ih =>
      intro k s hs
      cases hok : res k with
      | ok u =>
          by_cases ht : 1 < total
          · simp only [trigger_loop, hok, if_pos ht] at hs
            rw [sleepEvents_append] at hs
            simp [sleepEvents, sleepLen?, List.filterMap_cons] at hs
            rcases hs with hs | hs
            · exact hs
            · exact ih (k + 1) s (by simpa [sleepEvents] using hs)
          · simp only [trigger_loop, hok, if_neg ht] at hs
            rw [sleepEvents_append] at hs
            simp [sleepEvents, sleepLen?, List.filterMap_cons] at hs
            exact ih (k + 1) s (by simpa [sleepEvents] using hs)
      | error e =>
          simp only [trigger_loop, hok] at hs
          rw [sleepEvents_append] at hs
          simp [sleepEvents, sleepLen?, List.filterMap_cons] at hs
          exact ih (k + 1) s (by simpa [sleepEvents] using hs)

/-- A comment oracle on which every call succeeds. -/
def resOkAll : Nat → Except String Unit := fun _ => .ok ()

/-- Counterexample to claim C4 as stated: triggering on the two-issue
list [1, 2] with both comment calls succeeding produces two sleeps, and
the trace even ends with a sleep — a delay after the last call, not only
between successive calls (the claim predicts a single sleep, between the
two calls). -/
theorem c4_sleep_after_last_cex :
    (trigger_claude_on_issues resOkAll [1, 2]).getLast?
      = some (Event.sleep 30)
    ∧ (sleepEvents (trigger_claude_on_issues resOkAll [1, 2])).length = 2 := by
  constructor
  · rfl
  · rfl

/-- Claim C4 as amended: a 30-second sleep occurs after each successful
comment call whenever the issue list has more than one entry — including
after the last call — and never after a failed call; a list of at most
one entry gets no sleep at all. Every sleep in the trace is 30 seconds. -/
theorem c4_sleep_placement (res : Nat → Except String Unit) (ns : List Nat) :
    (ns.length ≤ 1 → sleepEvents (trigger_claude_on_issues res ns) = [])
    ∧ (1 < ns.length →
        (sleepEvents (trigger_claude_on_issues res ns)).length =
          ((List.range ns.length).filter (fun j => isOkB (res j))).length)
    ∧ (∀ s ∈ sleepEvents (trigger_claude_on_issues res ns), s = 30) := by
  refine ⟨?_, ?_, ?_⟩
  · intro hle
    exact sleep_none_trigger_loop res ns.length (by omega) ns 0
  · intro ht
    have := sleep_count_trigger_loop res ns.length ht ns 0
    simpa using this
  · intro s hs
    exact sleep_all_thirty_trigger_loop res ns.length ns 0 s hs

/-- Witness for C4's amended theorem at a concrete input: on the
two-issue list [1, 2] with both calls succeeding, the sleep count equals
the number of successful calls (both of them). -/
theorem c4_sleep_placement_witness :
    (sleepEvents (trigger_claude_on_issues resOkAll [1, 2])).length =
      ((List.range ([1, 2] : List Nat).length).filter
        (fun j => isOkB (resOkAll j))).length :=
  (c4_sleep_placement resOkAll [1, 2]).2.1 (by decide)

theorem fileWrites_create_loop (res : Nat → Except String String)
    (l : List Feature) : ∀ k,
    fileWrites (create_feature_issues_loop res k l) = [] := by
  induction l with
  | nil => intro k; rfl
  | cons f rest ih =>
      intro k
      cases hok : res k with
      | ok out =>
          simp only [create_feature_issues_loop, hok]
          rw [fileWrites_append, ih (k + 1)]
          rfl
      | error err =>
          simp only [create_feature_issues_loop, hok]
          rw [fileWrites_append, ih (k + 1)]
          rfl

theorem fileWrites_simple_loop (res : Nat → Except String String)
    (l : List Feature) : ∀ k,
    fileWrites (create_issues_simple_loop res k l) = [] := by
  induction l with
  | nil => intro k; rfl
  | cons f rest ih =>
      intro k
      cases hok : res k with
      | ok out =>
          simp only [create_issues_simple_loop, hok]
          rw [fileWrites_append, ih (k + 1)]
          rfl
      | error err =>
          simp only [create_issues_simple_loop, hok]
          rw [fileWrites_append, ih (k + 1)]
          rfl

theorem fileWrites_trigger_loop (res : Nat → Except String Unit)
    (total : Nat) (l : List Nat) : ∀ k,
    fileWrites (trigger_loop res total k l) = [] := by
  induction l with
  | nil => intro k; rfl
  | cons n rest ih =>
      intro k
      cases hok : res k with
      | ok u =>
          by_cases ht : 1 < total
          · simp only [trigger_loop, hok, if_pos ht]
            rw [fileWrites_append, fileWrites_append, ih (k + 1)]
            rfl
          · simp only [trigger_loop, hok, if_neg ht]
            rw [fileWrites_append, fileWrites_append, ih (k + 1)]
            rfl
      | error e =>
          simp only [trigger_loop, hok]
          rw [fileWrites_append, fileWrites_append, ih (k + 1)]
          rfl

theorem fileWrites_sync_loop (rc : Nat → Bool) :
    ∀ (l : List (String × String × String)) (k : Nat),
    fileWrites (sync_loop rc k l) = [] := by
  intro l
  induction l with
  | nil => intro k; rfl
  | cons b rest ih =>
      intro k
      obtain ⟨branch, fid, fname⟩ := b
      cases h1 : rc (2 * k) with
      | true =>
          cases h2 : rc (2 * k + 1) with
          | true =>
              simp only [sync_loop, h1, h2, if_pos]
              repeat rw [fileWrites_append]
              rw [ih (k + 1)]
              rfl
          | false =>
              simp only [sync_loop, h1, h2, if_pos, if_neg]
              repeat rw [fileWrites_append]
              rw [ih (k + 1)]
              rfl
      | false =>
          cases h2 : rc (2 * k + 1) with
          | true =>
              simp only [sync_loop, h1, h2]
              repeat rw [fileWrites_append]
              rw [ih (k + 1)]
              rfl
          | false =>
              simp only [sync_loop, h1, h2]
              repeat rw [fileWrites_append]
              rw [ih (k + 1)]
              rfl

theorem fileWrites_map_issueLine (l : List Issue) :
    fileWrites (l.map issueLine) = [] := by
  induction l with
  | nil => rfl
  | cons i rest ih =>
      simp only [List.map_cons]
      show fileWrites (Event.print _ :: rest.map issueLine) = []
      rw [show (Event.print ("  #" ++ toString i.number ++ " " ++ i.title)
        :: rest.map issueLine)
        = [Event.print ("  #" ++ toString i.number ++ " " ++ i.title)]
          ++ rest.map issueLine from rfl, fileWrites_append, ih]
      rfl

theorem fileWrites_map_prLine (l : List PullReq) :
    fileWrites (l.map prLine) = [] := by
  induction l with
  | nil => rfl
  | cons pr rest ih =>
      simp only [List.map_cons]
      rw [show prLine pr :: rest.map prLine
        = [prLine pr] ++ rest.map prLine from rfl, fileWrites_append, ih]
      rfl

theorem fileWrites_dashboardTail (issues : List Issue)
    (prFetch : Option (List PullReq)) :
    fileWrites (dashboardTail issues prFetch) = [] := by
  have hns : fileWrites (if (notStartedBucket issues).isEmpty then []
      else Event.print "⏳ 未着手のIssue:"
        :: (notStartedBucket issues).map issueLine) = [] := by
    split
    · rfl
    · rw [show Event.print "⏳ 未着手のIssue:"
          :: (notStartedBucket issues).map issueLine
        = [Event.print "⏳ 未着手のIssue:"]
          ++ (notStartedBucket issues).map issueLine from rfl,
        fileWrites_append, fileWrites_map_issueLine]
      rfl
  have hrd : fileWrites (if (readyBucket issues).isEmpty then []
      else Event.print "🔄 実装中のIssue:"
        :: (readyBucket issues).map issueLine) = [] := by
    split
    · rfl
    · rw [show Event.print "🔄 実装中のIssue:"
          :: (readyBucket issues).map issueLine
        = [Event.print "🔄 実装中のIssue:"]
          ++ (readyBucket issues).map issueLine from rfl,
        fileWrites_append, fileWrites_map_issueLine]
      rfl
  have him : fileWrites (if (implementedBucket issues).isEmpty then []
      else Event.print "✅ 実装済みのIssue:"
        :: ((implementedBucket issues).take 5).map issueLine
        ++ (if 5 < (implementedBucket issues).length then
              [Event.print ("  ... 他 "
                ++ toString ((implementedBucket issues).length - 5) ++ " 件")]
            else [])) = [] := by
    split
    · rfl
    · rw [show Event.print "✅ 実装済みのIssue:"
          :: ((implementedBucket issues).take 5).map issueLine
          ++ (if 5 < (implementedBucket issues).length then
                [Event.print ("  ... 他 "
                  ++ toString ((implementedBucket issues).length - 5) ++ " 件")]
              else [])
        = [Event.print "✅ 実装済みのIssue:"]
          ++ (((implementedBucket issues).take 5).map issueLine
            ++ (if 5 < (implementedBucket issues).length then
                  [Event.print ("  ... 他 "
                    ++ toString ((implementedBucket issues).length - 5)
                    ++ " 件")]
                else [])) from rfl,
        fileWrites_append, fileWrites_append, fileWrites_map_issueLine]
      split <;> rfl
  have hpr : fileWrites (match prFetch with
      | some prs => prs.map prLine
      | none => []) = [] := by
    cases prFetch with
    | none => rfl
    | some prs => exact fileWrites_map_prLine prs
  have hn1 : fileWrites (match notStartedBucket issues with
      | i :: _ =>
          [Event.print "  1. 未着手のIssueに ready-to-implement ラベルを付けて実装開始",
           Event.print ("     gh issue edit " ++ toString i.number
             ++ " --add-label ready-to-implement")]
      | [] => []) = [] := by
    cases notStartedBucket issues <;> rfl
  have hn2 : fileWrites (match readyBucket issues with
      | i :: _ =>
          [Event.print "  2. 実装中のIssueの進捗確認",
           Event.print ("     gh issue view " ++ toString i.number)]
      | [] => []) = [] := by
    cases readyBucket issues <;> rfl
  unfold dashboardTail
  repeat rw [fileWrites_append]
  simp only [hns, hrd, him, hpr, hn1, hn2]
  rfl

/-- Claim C7: across all runs of all six scripts, the only file the
scripts themselves create or modify (as opposed to effects of the
external CLI subprocesses they invoke) is the `progress.json` snapshot
written by the progress checker. -/
theorem c7_only_progress_json_written :
    (∀ (fs : String → Bool) (spec : YamlSpec),
      fileWrites (check_progress_trace fs spec) = ["progress.json"])
    ∧ (∀ (res : Nat → Except String String) (spec : YamlSpec),
        fileWrites (create_feature_issues_trace res spec) = [])
    ∧ (∀ res : Nat → Except String String,
        fileWrites (create_issues_simple_trace res) = [])
    ∧ (∀ (now : String) (issueFetch : Option (List Issue))
        (prFetch : Option (List PullReq)),
        fileWrites (show_dashboard now issueFetch prFetch).1 = [])
    ∧ fileWrites create_milestone_trace = []
    ∧ (∀ (res : Nat → Except String Unit) (ns : List Nat),
        fileWrites (trigger_claude_on_issues res ns) = [])
    ∧ (∀ fetch : Except String (List Issue),
        fileWrites (get_unimplemented_issues fetch).1 = [])
    ∧ (∀ rc : Nat → Bool,
        fileWrites (sync_claude_implementations rc) = []) := by
  refine ⟨?_, ?_, ?_, ?_, ?_, ?_, ?_, ?_⟩
  · intro fs spec
    rfl
  · intro res spec
    exact fileWrites_create_loop res spec.features 0
  · intro res
    exact fileWrites_simple_loop res featuresSimple 0
  · intro now issueFetch prFetch
    cases issueFetch with
    | none => rfl
    | some issues =>
        by_cases h0 : issues.length = 0
        · simp only [show_dashboard, h0, if_pos]
          rfl
        · simp only [show_dashboard, if_neg h0]
          repeat rw [fileWrites_append]
          rw [fileWrites_dashboardTail]
          rfl
  · rfl
  · intro res ns
    exact fileWrites_trigger_loop res ns.length ns 0
  · intro fetch
    cases fetch <;> rfl
  · intro rc
    unfold sync_claude_implementations
    rw [fileWrites_append,
      show (Event.exec ["git", "branch", "--show-current"]
          :: sync_loop rc 0 claude_branches)
        = [Event.exec ["git", "branch", "--show-current"]]
          ++ sync_loop rc 0 claude_branches from rfl,
      fileWrites_append, fileWrites_sync_loop]
    rfl
